import Mathlib

/-
Verification of the physiological-insights analytics engine
(physiological_insights package) against its specification.

Each `def` below is a shallow embedding of the correspondingly named
Python function; pandas frames become Lists of structures, NaN/absent
cells become `Option`, floats become `ℚ` (and `ℝ` where the code uses
`math.log`).  Theorems at the end settle the spec claims.
-/

namespace PhysIns

/-! ## Readiness tier assignment (`readiness.py`) -/

/-- One row of the `_TIERS` threshold table of `readiness.py`. -/
structure Tier where
  name : String
  color : String
  rmssd_min : ℚ
  ready_min : ℚ
deriving DecidableEq, Repr

/-- The `_TIERS` ordered threshold list of `readiness.py`. -/
def TIERS : List Tier :=
  [ ⟨"Peak", "green", 90, 175⟩,
    ⟨"Good", "blue", 75, 155⟩,
    ⟨"Moderate", "yellow", 55, 140⟩,
    ⟨"Low", "orange", 40, 130⟩,
    ⟨"Recovery", "red", 0, 0⟩ ]

/-- The ordered list of tier names, `tier_order` in `_classify_tier`. -/
def tier_order : List String := TIERS.map (·.name)

/-- The self-report cap of `_classify_tier` (`sr_cap` in the code):
`Recovery` when stress and sleepiness are both above 7, `Low`
when both are above 5, otherwise no cap. -/
def sr_cap (stress sleepiness : Option ℚ) : Option String :=
  match stress, sleepiness with
  | some s, some sl =>
      if 7 < s ∧ 7 < sl then some "Recovery"
      else if 5 < s ∧ 5 < sl then some "Low"
      else none
  | _, _ => none

/-- The tier selected from the threshold table before the self-report cap
is applied (the loop body of `_classify_tier`): the first table row whose
floors are met, `Recovery` by default and `Moderate` when the Ready score
is unavailable. -/
def base_tier (ready_score rmssd_pct : Option ℚ) : String :=
  match ready_score with
  | none => "Moderate"
  | some score =>
      let hit := TIERS.find? (fun t =>
        match rmssd_pct with
        | some r => decide (t.rmssd_min ≤ r ∧ t.ready_min ≤ score)
        | none => decide (t.ready_min ≤ score))
      (hit.map (·.name)).getD "Recovery"

/-- The `_classify_tier` of `readiness.py`: threshold-table tier, then the
self-report cap, which replaces the tier when the tier sits strictly
earlier (higher) in `tier_order` than the cap. -/
def classify_tier (ready_score rmssd_pct stress sleepiness : Option ℚ) : String :=
  let tier := base_tier ready_score rmssd_pct
  match sr_cap stress sleepiness with
  | some cap => if tier_order.indexOf tier < tier_order.indexOf cap then cap else tier
  | none => tier

/-- The five tier names, in the order `Peak > Good > Moderate > Low > Recovery`. -/
def tier_names : List String := ["Peak", "Good", "Moderate", "Low", "Recovery"]

/-- Position of a tier name in `tier_order` (0 = `Peak` … 4 = `Recovery`);
a larger value is a lower tier. -/
def tier_rank (t : String) : ℕ := tier_order.indexOf t

/-! ### `assign_readiness_tiers` -/

/-- One entry of `performance["daily_ready"]`: the date key and that day's
mean Ready score (absent when the mean is NaN). -/
structure DailyReady where
  date : String
  mean : Option ℚ
deriving DecidableEq, Repr

/-- One entry of `performance["daily_self_report"]`. -/
structure SelfReport where
  date : String
  stress : Option ℚ
  sleepiness : Option ℚ
deriving DecidableEq, Repr

/-- The per-date record stored in `tiers_by_date` (the static
`task_suitability` matrix, a pure lookup of the tier name, is omitted). -/
structure TierInfo where
  tier : String
  color : String
  ready_score : Option ℚ
deriving DecidableEq, Repr

/-- The slice of the HRV component output read by `assign_readiness_tiers`,
together with representative per-date HRV fields (`diurnal_profile`,
`rmssd_7d_slope`, daily series) that the tier assigner provably ignores. -/
structure HrvOut where
  rmssd_baseline : Option ℚ
  morning_rmssd : Option ℚ
  rmssd_pct_baseline : Option ℚ
  diurnal_profile : List (ℕ × ℚ)
  rmssd_7d_slope : Option ℚ
deriving DecidableEq, Repr

/-- The slice of the performance component output read by
`assign_readiness_tiers`. -/
structure PerfOut where
  ready_baseline : Option ℚ
  daily_ready : List DailyReady
  daily_self_report : List SelfReport
deriving DecidableEq, Repr

/-- The `results` argument of `assign_readiness_tiers`. -/
structure ReadinessInput where
  performance : PerfOut
  hrv : HrvOut
deriving DecidableEq, Repr

/-- Python string slicing `s[:10]` (date-key truncation), written over the
character list so that it reduces on symbolic strings. -/
def str_take10 (s : String) : String := ⟨s.data.take 10⟩

/-- The self-report lookup loop of `assign_readiness_tiers`: the stress and
sleepiness of the first self-report row whose date key matches. -/
def sr_lookup (daily_sr : List SelfReport) (date : String) : Option ℚ × Option ℚ :=
  match daily_sr.find? (fun sr => str_take10 sr.date == date) with
  | some sr => (sr.stress, sr.sleepiness)
  | none => (none, none)

/-- Colour of a tier name from the `_TIERS` table
(`next(t["color"] for t in _TIERS if t["name"] == tier)`). -/
def tier_color (tier : String) : String :=
  ((TIERS.find? (fun t => t.name == tier)).map (·.color)).getD ""

/-- Python-dict insertion `m[k] = v`: replace the first binding of `k`,
else append. -/
def upsert {α : Type} : List (String × α) → String → α → List (String × α)
  | [], k, v => [(k, v)]
  | (k', v') :: rest, k, v =>
      if k' = k then (k, v) :: rest else (k', v') :: upsert rest k v

/-- The dict entry written by one iteration of the `assign_readiness_tiers`
loop for one `daily_ready` row. -/
def tier_entry (results : ReadinessInput) (day : DailyReady) : String × TierInfo :=
  let date := str_take10 day.date
  let sr := sr_lookup results.performance.daily_self_report date
  let tier := classify_tier day.mean results.hrv.rmssd_pct_baseline sr.1 sr.2
  (date, ⟨tier, tier_color tier, day.mean⟩)

/-- The `tiers_by_date` dict built by `assign_readiness_tiers`, as an
insertion-ordered association list. -/
def tiers_by_date (results : ReadinessInput) : List (String × TierInfo) :=
  results.performance.daily_ready.foldl
    (fun m day => upsert m (tier_entry results day).1 (tier_entry results day).2) []

/-- The `assign_readiness_tiers` of `readiness.py`: the per-date tier dict and
the latest day's entry (the static `task_matrix` echo is omitted). -/
def assign_readiness_tiers (results : ReadinessInput) :
    List (String × TierInfo) × Option TierInfo :=
  let tbd := tiers_by_date results
  let latest := match results.performance.daily_ready.getLast? with
    | some d => (tbd.find? (fun p => p.1 == str_take10 d.date)).map (·.2)
    | none => none
  (tbd, latest)

/-! ## Strain scorer (`strain.py`)

`math.log` is modelled by `Real.log`, so this section is a noncomputable
real-valued embedding.  The pandas date grouping and the numpy
99th-percentile max-HR estimate are taken as parameters (`days`, `max_hr`);
all theorems below hold for every grouping and every max-HR value, which
subsumes the values the code computes.  The per-day `zone_minutes`
breakdown, a display field, is omitted from the daily record. -/

noncomputable section

/-- The `_ZONE_BOUNDS` of `strain.py`. -/
def ZONE_BOUNDS : List ℚ := [1/2, 3/5, 7/10, 4/5, 9/10, 1]

/-- The `_ZONE_WEIGHTS` of `strain.py`. -/
def ZONE_WEIGHTS : List ℝ := [0, 1, 2, 4, 8]

/-- The `_STRAIN_CAP` of `strain.py`. -/
def STRAIN_CAP : ℝ := 21

/-- The `_CV_DIVISOR`. -/
def CV_DIVISOR : ℝ := 80

/-- The `_CV_SCALE`. -/
def CV_SCALE : ℝ := 11/2

/-- The `_MUSC_DIVISOR`. -/
def MUSC_DIVISOR : ℝ := 5000

/-- The `_MUSC_SCALE`. -/
def MUSC_SCALE : ℝ := 4

/-- Python `round(x, 1)` (half-to-even only differs on exact midpoints,
which no claim depends on). -/
def round1 (x : ℝ) : ℝ := (round (10 * x) : ℤ) / 10

/-- The `_classify_zone` of `strain.py`: first zone bound (all but the last)
that the %-of-max-HR falls below, else zone 5. -/
def classify_zone (hr max_hr : ℚ) : ℕ :=
  let pct := if 0 < max_hr then hr / max_hr else 0
  ((List.range (ZONE_BOUNDS.length - 1)).find?
    (fun i => decide (pct < ZONE_BOUNDS.getD i 0))).getD 5

/-- The `_raw_to_borg` of `strain.py`. -/
def raw_to_borg (raw divisor scale : ℝ) : ℝ :=
  if raw ≤ 0 then 0
  else min STRAIN_CAP (round1 (scale * Real.log (1 + raw / divisor)))

/-- One wear-on sensor epoch as seen by `analyse_strain`: mean heart rate
and summed accelerometer energy. -/
structure StrainEpoch where
  hr : ℚ
  energy : ℚ
deriving DecidableEq

/-- One element of the `daily_strain` output list. -/
structure DailyStrain where
  date : String
  strain_score : ℝ
  cardiovascular_strain : ℝ
  muscular_strain : ℝ
  strain_level : String
  sleep_need_adjustment_min : ℕ

/-- The `_strain_label` of `strain.py`. -/
def strain_label (score : ℝ) : String :=
  if score < 4 then "minimal"
  else if score < 8 then "light"
  else if score < 14 then "moderate"
  else if score < 18 then "high"
  else "overreaching"

/-- Number of epochs of one day falling in HR zone `z`
(`zone_counts.get(z, 0)`). -/
def zone_count (epochs : List StrainEpoch) (max_hr : ℚ) (z : ℕ) : ℕ :=
  (epochs.filter (fun e => decide (classify_zone e.hr max_hr = z))).length

/-- The `raw_cv` of `analyse_strain`: Σ over zones 1–5 of
zone-count × 0.5 min × zone weight. -/
def raw_cv (epochs : List StrainEpoch) (max_hr : ℚ) : ℝ :=
  ((List.range 5).map
    (fun j => (zone_count epochs max_hr (j + 1) : ℝ) * (1/2) * ZONE_WEIGHTS.getD j 0)).sum

/-- The `muscular_energy` of `analyse_strain`: summed accelerometer energy of
zone ≥ 3 epochs. -/
def muscular_energy (epochs : List StrainEpoch) (max_hr : ℚ) : ℚ :=
  ((epochs.filter (fun e => decide (3 ≤ classify_zone e.hr max_hr))).map (·.energy)).sum

/-- The sleep-need adjustment step function of `analyse_strain`. -/
def sleep_need_adjustment (combined : ℝ) : ℕ :=
  if 18 ≤ combined then 45 else if 14 ≤ combined then 30
  else if 10 ≤ combined then 15 else 0

/-- The loop body of `analyse_strain` for one date group. -/
def daily_strain_record (date : String) (epochs : List StrainEpoch) (max_hr : ℚ) :
    DailyStrain :=
  let cv := raw_to_borg (raw_cv epochs max_hr) CV_DIVISOR CV_SCALE
  let musc := raw_to_borg (muscular_energy epochs max_hr : ℝ) MUSC_DIVISOR MUSC_SCALE
  let combined := min STRAIN_CAP (round1 (cv * (7/10) + musc * (3/10)))
  { date := date
    strain_score := combined
    cardiovascular_strain := cv
    muscular_strain := musc
    strain_level := strain_label combined
    sleep_need_adjustment_min := sleep_need_adjustment combined }

/-- The `analyse_strain` of `strain.py`, its `daily_strain` output: one record
per date group of the wear-on frame. -/
def analyse_strain (days : List (String × List StrainEpoch)) (max_hr : ℚ) :
    List DailyStrain :=
  days.map (fun d => daily_strain_record d.1 d.2 max_hr)

end

/-! ## Sleep detector (`sleep.py`)

Per-night body of `analyse_sleep` (one `night_df` group, already sorted by
time): onset selection, sustained-wake offset scan and the 60-minute
duration gate.  Epoch timestamps are minutes; the calendar grouping, HR
nadir, wake-episode count and continuity score are separate computations
not referenced by any claim and are omitted here. -/

/-- One wear-on sensor epoch of a night group: timestamp (minutes), mean
heart rate, RMSSD (absent when the column is missing or the cell NaN). -/
structure SEpoch where
  t : ℕ
  hr : ℚ
  rmssd : Option ℚ
deriving DecidableEq, Repr

/-- Local hour of a minute timestamp. -/
def hour_of (t : ℕ) : ℕ := (t / 60) % 24

/-- Epoch at positional index `i` of the night frame. -/
def epoch_at (night : List SEpoch) (i : ℕ) : SEpoch := night.getD i ⟨0, 0, none⟩

/-- Timestamp at positional index `i`. -/
def epoch_t (night : List SEpoch) (i : ℕ) : ℕ := (epoch_at night i).t

/-- The 21:00–03:00 plausible sleep window filter of `analyse_sleep`. -/
def sleep_window (night : List SEpoch) : List SEpoch :=
  night.filter (fun e => decide (21 ≤ hour_of e.t ∨ hour_of e.t ≤ 3))

/-- Onset selection of `analyse_sleep`: first window epoch with HR < 65
(also RMSSD > 70 when any RMSSD data exists for the night), falling back
to HR < 70; `none` skips the night, as does an empty window. -/
def onset_epoch (night : List SEpoch) : Option SEpoch :=
  let window := sleep_window night
  let hasR := night.any (fun e => e.rmssd.isSome)
  let c1 := window.filter (fun e => decide (e.hr < 65))
  let c2 := if hasR then c1.filter (fun e => e.rmssd.elim false (fun v => decide (70 < v))) else c1
  let cands := if c2.isEmpty then window.filter (fun e => decide (e.hr < 70)) else c2
  cands.head?

/-- Positional indices of `post_onset` (epochs at or after the onset
timestamp). -/
def post_positions (night : List SEpoch) (onsetT : ℕ) : List ℕ :=
  (List.range night.length).filter (fun i => decide (onsetT ≤ epoch_t night i))

/-- Positional indices of `wake_candidates` (post-onset epochs with
HR ≥ 70, the wake threshold). -/
def wake_positions (night : List SEpoch) (onsetT : ℕ) : List ℕ :=
  (post_positions night onsetT).filter (fun i => decide ((70 : ℚ) ≤ (epoch_at night i).hr))

/-- The inner consecutive-run scan of `analyse_sleep`: walking the wake
candidate indices with a `consecutive` counter, returning the start of the
first run that reaches 5 consecutive indices. -/
def find_sustained_go (prev cons : ℕ) : List ℕ → Option ℕ
  | [] => none
  | x :: xs =>
      if x = prev + 1 then
        if 5 ≤ cons + 1 then some (x - 4) else find_sustained_go x (cons + 1) xs
      else find_sustained_go x 1 xs

/-- The sustained-wake scan started at the first wake candidate. -/
def find_sustained : List ℕ → Option ℕ
  | [] => none
  | h :: t => find_sustained_go h 1 t

/-- The sleep-offset timestamp of `analyse_sleep`: start of the first
5-consecutive wake run when found, else the first wake candidate
(`sleep_offset_idx` is initialised to `wake_idx[0]`); with no wake
candidates at all, the last post-onset epoch.  The final fallback (no
post-onset epochs) cannot occur since the onset epoch is post-onset. -/
def offset_time (night : List SEpoch) (onsetT : ℕ) : ℕ :=
  match wake_positions night onsetT with
  | [] =>
      match (post_positions night onsetT).getLast? with
      | some i => epoch_t night i
      | none => onsetT
  | p :: _ => epoch_t night ((find_sustained (wake_positions night onsetT)).getD p)

/-- The night record produced by `analyse_sleep` (claim-relevant fields). -/
structure NightRec where
  sleep_onset : ℕ
  sleep_offset : ℕ
  duration_min : ℕ
deriving DecidableEq, Repr

/-- Per-night body of `analyse_sleep`: `none` when the night is skipped
(no onset candidate or duration below 60 minutes). -/
def analyse_sleep_night (night : List SEpoch) : Option NightRec :=
  match onset_epoch night with
  | none => none
  | some o =>
      let offT := offset_time night o.t
      let dur := offT - o.t
      if dur < 60 then none else some ⟨o.t, offT, dur⟩

/-- Spec-side predicate, from the spec's words: index `p` starts a run of
at least 5 consecutive wake-candidate indices of `l`. -/
def run_start (l : List ℕ) (p : ℕ) : Bool :=
  decide (p + 1 ∈ l ∧ p + 2 ∈ l ∧ p + 3 ∈ l ∧ p + 4 ∈ l)

/-- Spec-side offset rule, from the spec's words: the first element of `l`
that starts a run of at least 5 consecutive elements. -/
def first_run_start (l : List ℕ) : Option ℕ := l.find? (run_start l)

/-- Sleep detector night used in the spec's offset test: HR below 65 from
23:00 (t = 1380) and HR above 70 for 5 consecutive epochs from 06:00
(t = 1800). -/
def ex_night : List SEpoch :=
  [⟨1380, 60, none⟩, ⟨1500, 55, none⟩, ⟨1620, 58, none⟩, ⟨1740, 60, none⟩,
   ⟨1800, 75, none⟩, ⟨1801, 76, none⟩, ⟨1802, 75, none⟩, ⟨1803, 74, none⟩,
   ⟨1804, 75, none⟩]

/-- A night with a single isolated HR ≥ 70 epoch after onset (no
5-consecutive run), whose last available epoch is at t = 1800. -/
def cex_night : List SEpoch :=
  [⟨1380, 60, none⟩, ⟨1500, 75, none⟩, ⟨1620, 60, none⟩, ⟨1700, 58, none⟩,
   ⟨1800, 60, none⟩]

/-! ## Pattern detector (`patterns.py`)

All 14 rules of `detect_patterns`, over typed rows; the human-readable
`description` strings (display only, never matched on) are omitted from
the pattern records.  Column-presence guards (`"stress" in
tests_df.columns` …) are modelled by per-cell `Option` values with the
columns present.  The `daily_ready` means are Python floats that may be
NaN (pandas group means of coerced scores): rule 1's `is not None` filter
keeps NaN means, whose deltas are NaN and never count as negative, so
they are modelled by the three-valued `PyNum` below rather than the
NaN-as-absent `Option` convention used where NaN and None coincide. -/

/-- A Python numeric cell as read by `d.get("mean")`: `none` (the key is
absent or holds Python `None`), `nan` (`float('nan')`), or a number. -/
inductive PyNum where
  | none : PyNum
  | nan : PyNum
  | num : ℚ → PyNum
deriving DecidableEq, Repr

/-- One entry of `performance["daily_ready"]` as read by
`detect_patterns`: the date key and the day's mean Ready score, a float
that may be NaN. -/
structure DailyReadyRow where
  date : String
  mean : PyNum
deriving DecidableEq, Repr

/-- Python float subtraction with NaN propagation (`none` here stands
for NaN). -/
def float_sub (a b : Option ℚ) : Option ℚ :=
  match a, b with
  | some x, some y => some (x - y)
  | _, _ => Option.none

/-- Python `d < 0` on a float: false when `d` is NaN. -/
def float_lt_zero (d : Option ℚ) : Bool :=
  match d with
  | some x => decide (x < 0)
  | Option.none => false

/-- Rule 1's mean filter
`[d["mean"] for d in recent if d.get("mean") is not None]`: drops only
`None`, keeping NaN means (as `none`-valued floats). -/
def kept_means (recent : List DailyReadyRow) : List (Option ℚ) :=
  recent.filterMap (fun d =>
    match d.mean with
    | .none => Option.none
    | .nan => some Option.none
    | .num q => some (some q))

/-- One row of `tests_df` as read by `detect_patterns`. -/
structure TestRow where
  type : String
  score : Option ℚ
  stress : Option ℚ
  sleepiness : Option ℚ
  sharpness : Option ℚ
  context_note : Option String
  date : String
deriving DecidableEq, Repr

/-- One row of `performance["weekly"]`. -/
structure WeeklyRow where
  ready_change_pct : Option ℚ
  agility_mean : Option ℚ
  date_min : String
deriving DecidableEq, Repr

/-- One sensor-derived night as read by `detect_patterns`. -/
structure SensorNight where
  night_date : String
  wake_episodes : Option ℕ
  duration_min : Option ℚ
deriving DecidableEq, Repr

/-- One sleep-session night summary as read by `detect_patterns`. -/
structure SSNight where
  night_date : String
  deep_pct : ℚ
  rem_pct : ℚ
  total_sleep_min : ℚ
  session_time_min : ℚ
  efficiency_pct : ℚ
  recovery_score : Option ℚ
  circadian_compliance : Option ℚ
deriving DecidableEq, Repr

/-- The `sleep_debt` summary as read by rule 9. -/
structure DebtInfo where
  current_debt_min : Option ℚ
deriving DecidableEq, Repr

/-- The inputs `detect_patterns` reads from `tests_df` and `results`. -/
structure PatternsInput where
  tests : Option (List TestRow)
  daily_ready : List DailyReadyRow
  ready_baseline : Option ℚ
  weekly : List WeeklyRow
  rmssd_7d_slope : Option ℚ
  sensor_nights : List SensorNight
  ss_nights : List SSNight
  sleep_debt : Option DebtInfo
deriving DecidableEq, Repr

/-- One detected pattern record (id, severity, first-detected date). -/
structure Pattern where
  pattern : String
  severity : String
  first_detected : Option String
deriving DecidableEq, Repr

/-- The `kw in s` on lowercased text (rule 8's keyword test). -/
def contains_sub (needle hay : List Char) : Bool :=
  hay.tails.any (fun t => needle.isPrefixOf t)

/-- Python `x or d` on an optional number: `d` when the value is absent
or zero (falsy), else the value. -/
def py_or (v : Option ℚ) (d : ℚ) : ℚ :=
  match v with
  | some x => if x = 0 then d else x
  | none => d

/-- Minimum of a nonempty list of date strings (`series.min()`). -/
def min_date (d : String) (ds : List String) : String :=
  ds.foldl (fun a b => if b < a then b else a) d

/-- Mean of a list of rationals (`np.mean` / pandas `.mean()` on the
non-null values). -/
def list_mean (l : List ℚ) : ℚ := l.sum / l.length

/-- Rule 1 of `detect_patterns`: compounding readiness debt — among the
last 7 `daily_ready` entries (requiring at least 5 entries overall and at
least 5 means that are not `None`, NaN means included), at least 3
consecutive-mean deltas negative; a delta touching a NaN mean is NaN and
never counts as negative. -/
def rule_compounding (daily_ready : List DailyReadyRow) : List Pattern :=
  if 5 ≤ daily_ready.length then
    let recent := daily_ready.drop (daily_ready.length - 7)
    let means := kept_means recent
    if 5 ≤ means.length then
      let deltas := List.zipWith (fun a b => float_sub b a) means means.tail
      if 3 ≤ (deltas.filter float_lt_zero).length then
        [⟨"compounding_readiness_debt", "warning",
          some (str_take10 (((recent.getLast?.map (·.date)).getD "")))⟩]
      else []
    else []
  else []

/-- Rule 2: RMSSD slope below −2 ms/day. -/
def rule_rmssd_declining (slope : Option ℚ) : List Pattern :=
  match slope with
  | some s => if s < -2 then [⟨"rmssd_declining", "warning", none⟩] else []
  | none => []

/-- Rule 3: more than 4 wake episodes on 2 or more nights. -/
def rule_fragmentation (nights : List SensorNight) : List Pattern :=
  let frag := nights.filter (fun n => decide (4 < n.wake_episodes.getD 0))
  if 2 ≤ frag.length then
    [⟨"sleep_fragmentation", "warning", (frag.head?.map (·.night_date))⟩]
  else []

/-- Rule 4: sleep under 360 minutes on 2 or more nights. -/
def rule_short_sleep (nights : List SensorNight) : List Pattern :=
  let short := nights.filter (fun n => decide (py_or n.duration_min 999 < 360))
  if 2 ≤ short.length then
    [⟨"sleep_debt", "warning", (short.head?.map (·.night_date))⟩]
  else []

/-- Rule 5: stress > 5 and sleepiness > 5 on 3 or more tests. -/
def rule_stress_sleepiness (tests : Option (List TestRow)) : List Pattern :=
  match tests with
  | none => []
  | some ts =>
      let compound := ts.filter (fun r =>
        (r.stress.elim false (fun s => decide (5 < s))) &&
        (r.sleepiness.elim false (fun s => decide (5 < s))))
      if 3 ≤ compound.length then
        [⟨"stress_sleepiness_compounding", "warning",
          match compound.map (·.date) with
          | [] => none
          | d :: ds => some (min_date d ds)⟩]
      else []

/-- Rule 6: self-reported sharpness ≥ 7 co-occurring with Ready score
below 140 (`worst` = the minimal-score such row). -/
def rule_mismatch (tests : Option (List TestRow)) : List Pattern :=
  match tests with
  | none => []
  | some ts =>
      let ready_tests := ts.filter (fun r => r.type == "READY" && r.sharpness.isSome)
      if ready_tests.isEmpty then []
      else
        let bad := ready_tests.filter (fun r =>
          (r.sharpness.elim false (fun s => decide (7 ≤ s))) &&
          (r.score.elim false (fun s => decide (s < 140))))
        match bad with
        | [] => []
        | b :: bs =>
            let worst := bs.foldl (fun w r =>
              if r.score.getD 0 < w.score.getD 0 then r else w) b
            [⟨"subjective_objective_mismatch", "info", some worst.date⟩]

/-- Rule 7: week-over-week Ready down more than 5% while agility up more
than 5%. -/
def rule_divergence (weekly : List WeeklyRow) : List Pattern :=
  if 2 ≤ weekly.length then
    let latest := weekly.getLast?.getD ⟨none, none, ""⟩
    let prior := weekly.getD (weekly.length - 2) ⟨none, none, ""⟩
    match latest.ready_change_pct, latest.agility_mean, prior.agility_mean with
    | some rc, some ac, some ap =>
        if 0 < ap then
          if rc < -5 ∧ 5 < (ac - ap) / ap * 100 then
            [⟨"agility_ready_divergence", "info", some (str_take10 latest.date_min)⟩]
          else []
        else []
    | _, _, _ => []
  else []

/-- The meal keywords of rule 8. -/
def meal_keywords : List (List Char) :=
  ["eating".toList, "meal".toList, "ate".toList, "lunch".toList,
   "dinner".toList, "food".toList, "snack".toList]

/-- Rule 8: 2 or more meal-tagged READY tests averaging more than 10
points below the Ready baseline (`if baseline:` – skipped when the
baseline is absent or zero). -/
def rule_post_meal (tests : Option (List TestRow)) (baseline : Option ℚ) : List Pattern :=
  match tests with
  | none => []
  | some ts =>
      let meal := ts.filter (fun r =>
        (r.context_note.elim false (fun s =>
          meal_keywords.any (fun kw => contains_sub kw (s.toList.map Char.toLower)))) &&
        r.type == "READY")
      if 2 ≤ meal.length then
        match baseline with
        | some b =>
            if b ≠ 0 then
              let scs := meal.filterMap (·.score)
              if scs.isEmpty then []
              else if 10 < b - list_mean scs then
                [⟨"post_meal_dip_detected", "info",
                  match meal.map (·.date) with
                  | [] => none
                  | d :: ds => some (min_date d ds)⟩]
              else []
            else []
        | none => []
      else []

/-- Rule 9: current sleep debt above 120 minutes. -/
def rule_chronic_debt (debt : Option DebtInfo) (ss_nights : List SSNight) : List Pattern :=
  match debt with
  | none => []
  | some d =>
      match d.current_debt_min with
      | none => []
      | some m =>
          if 120 < m then
            [⟨"chronic_sleep_debt", "warning", (ss_nights.head?.map (·.night_date))⟩]
          else []

/-- Rule 10: deep sleep below 15% on 2 or more nights longer than 60
minutes. -/
def rule_deep_deficit (ss_nights : List SSNight) : List Pattern :=
  let low := ss_nights.filter (fun n => decide (n.deep_pct < 15 ∧ 60 < n.total_sleep_min))
  if 2 ≤ low.length then
    [⟨"deep_sleep_deficit", "warning", (low.head?.map (·.night_date))⟩]
  else []

/-- Rule 11: REM sleep below 20% on 2 or more nights longer than 60
minutes. -/
def rule_rem_deficit (ss_nights : List SSNight) : List Pattern :=
  let low := ss_nights.filter (fun n => decide (n.rem_pct < 20 ∧ 60 < n.total_sleep_min))
  if 2 ≤ low.length then
    [⟨"rem_sleep_deficit", "warning", (low.head?.map (·.night_date))⟩]
  else []

/-- Rule 12: recovery score below 34 on 2 or more sessions. -/
def rule_low_recovery (ss_nights : List SSNight) : List Pattern :=
  let low := ss_nights.filter (fun n => n.recovery_score.elim false (fun s => decide (s < 34)))
  if 2 ≤ low.length then
    [⟨"low_recovery", "warning", (low.head?.map (·.night_date))⟩]
  else []

/-- Rule 13: efficiency below 85% on 2 or more sessions longer than 60
minutes. -/
def rule_low_efficiency (ss_nights : List SSNight) : List Pattern :=
  let low := ss_nights.filter (fun n =>
    decide (n.efficiency_pct < 85 ∧ 60 < n.session_time_min))
  if 2 ≤ low.length then
    [⟨"sleep_efficiency_low", "info", (low.head?.map (·.night_date))⟩]
  else []

/-- Rule 14: circadian compliance below 50% on 2 or more sessions. -/
def rule_misalignment (ss_nights : List SSNight) : List Pattern :=
  let low := ss_nights.filter (fun n =>
    n.circadian_compliance.elim false (fun c => decide (c < 50)))
  if 2 ≤ low.length then
    [⟨"circadian_misalignment", "warning", (low.head?.map (·.night_date))⟩]
  else []

/-- The `detect_patterns` of `patterns.py`: the 14 independent rules appended
in source order. -/
def detect_patterns (inp : PatternsInput) : List Pattern :=
  rule_compounding inp.daily_ready ++
  rule_rmssd_declining inp.rmssd_7d_slope ++
  rule_fragmentation inp.sensor_nights ++
  rule_short_sleep inp.sensor_nights ++
  rule_stress_sleepiness inp.tests ++
  rule_mismatch inp.tests ++
  rule_divergence inp.weekly ++
  rule_post_meal inp.tests inp.ready_baseline ++
  rule_chronic_debt inp.sleep_debt inp.ss_nights ++
  rule_deep_deficit inp.ss_nights ++
  rule_rem_deficit inp.ss_nights ++
  rule_low_recovery inp.ss_nights ++
  rule_low_efficiency inp.ss_nights ++
  rule_misalignment inp.ss_nights

/-- A 4-day declining Ready series (3 of 3 deltas negative) with all other
pattern inputs empty. -/
def cex_patterns : PatternsInput :=
  { tests := none
    daily_ready := [⟨"d1", .num 10⟩, ⟨"d2", .num 9⟩, ⟨"d3", .num 8⟩, ⟨"d4", .num 7⟩]
    ready_baseline := none
    weekly := []
    rmssd_7d_slope := none
    sensor_nights := []
    ss_nights := []
    sleep_debt := none }

/-- The spec's 5-day Ready series `[160, 155, 148, 140, 135]` with all
other pattern inputs empty. -/
def wit_patterns : PatternsInput :=
  { tests := none
    daily_ready := [⟨"2026-01-01", .num 160⟩, ⟨"2026-01-02", .num 155⟩,
      ⟨"2026-01-03", .num 148⟩, ⟨"2026-01-04", .num 140⟩, ⟨"2026-01-05", .num 135⟩]
    ready_baseline := none
    weekly := []
    rmssd_7d_slope := none
    sensor_nights := []
    ss_nights := []
    sleep_debt := none }

/-- A NaN-interleaved Ready series, daily means `[10, NaN, 9, NaN, 8, 7, 6]`:
every delta touching a NaN mean is NaN, leaving only 2 negative deltas. -/
def nan_series : List DailyReadyRow :=
  [⟨"d1", .num 10⟩, ⟨"d2", .nan⟩, ⟨"d3", .num 9⟩, ⟨"d4", .nan⟩,
   ⟨"d5", .num 8⟩, ⟨"d6", .num 7⟩, ⟨"d7", .num 6⟩]

/-! ## Sleep session analyzer (`sleep_sessions.py`) -/

/-- One sleep-session log row as read by `_classify_session_type`: the
night-date key, local start hour and total sleep time. -/
structure Session where
  night_date : String
  start_hour : ℕ
  total_sleep_time_min : ℚ
deriving DecidableEq, Repr

/-- Placeholder row for out-of-range positional access. -/
def no_session : Session := ⟨"", 0, 0⟩

/-- The first (vectorised) rule of `_classify_session_type`: local start
hour between 10 and 17 marks a nap. -/
def base_types (sessions : List Session) : List String :=
  sessions.map (fun s =>
    if 10 ≤ s.start_hour ∧ s.start_hour ≤ 17 then "nap" else "primary")

/-- Positional indices of the sessions sharing night-date key `d`
(one `groupby` group). -/
def group_idxs (sessions : List Session) (d : String) : List ℕ :=
  (List.range sessions.length).filter
    (fun i => (sessions.getD i no_session).night_date == d)

/-- The `group["total_sleep_time_min"].idxmax()`: the first group index
attaining the maximal total sleep time. -/
def longest_idx (sessions : List Session) (d : String) : ℕ :=
  match group_idxs sessions d with
  | [] => 0
  | g :: gs =>
      gs.foldl (fun best i =>
        if (sessions.getD best no_session).total_sleep_time_min
            < (sessions.getD i no_session).total_sleep_time_min then i else best) g

/-- The `_classify_session_type` of `sleep_sessions.py`, per positional index:
nap when the session's night-date group has more than one member and the
index is not the group's longest session, else the hour-based tag. -/
def classify_session_type (sessions : List Session) : List String :=
  (List.range sessions.length).map (fun i =>
    let d := (sessions.getD i no_session).night_date
    if 1 < (group_idxs sessions d).length ∧ i ≠ longest_idx sessions d then "nap"
    else (base_types sessions).getD i "primary")

/-- The spec's session-classifier test: two same-night sessions of 400 and
90 minutes total sleep, both starting at local hour 23. -/
def ex_sessions : List Session :=
  [⟨"2026-01-01", 23, 400⟩, ⟨"2026-01-01", 23, 90⟩]

/-- One primary-session row as read by `_analyse_sleep_debt` and
`_analyse_recovery`. -/
structure SessRow where
  sleep_debt_min : Option ℚ
  sleep_needed_min : Option ℚ
  total_sleep_time_min : Option ℚ
  recovery_score : Option ℚ
deriving DecidableEq, Repr

/-- Python `round(x, 1)` on rationals (half-to-even differs only on exact
midpoints of display fields no claim touches). -/
def roundq1 (x : ℚ) : ℚ := (round (10 * x) : ℤ) / 10

/-- The trend branch of `_analyse_sleep_debt`: compare last vs first of
the most recent 3 debt readings when at least 3 exist, of all readings
when exactly 2 exist, else `stable`. -/
def debt_trend_impl (debts : List ℚ) : String :=
  if 3 ≤ debts.length then
    let last3 := debts.drop (debts.length - 3)
    if last3.head?.getD 0 < last3.getLast?.getD 0 then "worsening"
    else if last3.getLast?.getD 0 < last3.head?.getD 0 then "improving"
    else "stable"
  else if 2 ≤ debts.length then
    if debts.head?.getD 0 < debts.getLast?.getD 0 then "worsening"
    else if debts.getLast?.getD 0 < debts.head?.getD 0 then "improving"
    else "stable"
  else "stable"

/-- The trend branch of `_analyse_recovery`: compare the last two
readings when at least 2 exist, else `stable`. -/
def recovery_trend_impl (scores : List ℚ) : String :=
  if 2 ≤ scores.length then
    if scores.getD (scores.length - 2) 0 < scores.getLast?.getD 0 then "improving"
    else if scores.getLast?.getD 0 < scores.getD (scores.length - 2) 0 then "declining"
    else "stable"
  else "stable"

/-- The `_analyse_sleep_debt` result record. -/
structure DebtResult where
  current_debt_min : Option ℚ
  current_debt_hours : Option ℚ
  nights_to_repay : Option ℤ
  avg_nightly_deficit_min : Option ℚ
  trend : Option String
deriving DecidableEq, Repr

/-- The `_analyse_sleep_debt` of `sleep_sessions.py`: early no-data return
(without a trend), else current debt, repayment estimate, average deficit
and the 3-reading (or 2) trend comparison. -/
def analyse_sleep_debt (rows : List SessRow) : DebtResult :=
  if rows.isEmpty then ⟨none, none, none, none, none⟩
  else
    match rows.filterMap (·.sleep_debt_min) with
    | [] => ⟨none, none, none, none, none⟩
    | d :: ds =>
        let debts := d :: ds
        let current := (d :: ds).getLast (List.cons_ne_nil d ds)
        let debt_hours := roundq1 (current / 60)
        let nights_to_repay : ℤ := if 0 < debt_hours then round (debt_hours * 4) else 0
        let needed := rows.filterMap (·.sleep_needed_min)
        let actual := rows.filterMap (·.total_sleep_time_min)
        let avg_deficit :=
          if ¬needed.isEmpty ∧ ¬actual.isEmpty then
            some (roundq1 (list_mean needed - list_mean actual)) else none
        ⟨some (roundq1 current), some debt_hours, some nights_to_repay,
          avg_deficit, some (debt_trend_impl debts)⟩

/-- The `_analyse_recovery` result record (the unreturned `green_count`
and the raw `history` echo are omitted). -/
structure RecoveryResult where
  latest : Option ℚ
  zone : Option String
  personal_mean : Option ℚ
  pct_of_mean : Option ℚ
  trend : Option String
  days_since_green_zone : Option ℕ
deriving DecidableEq, Repr

/-- The `_analyse_recovery` of `sleep_sessions.py`: early no-data return
(without a trend), else latest score, red/yellow/green zone, last-two
trend comparison and days since the last green reading. -/
def analyse_recovery (rows : List SessRow) : RecoveryResult :=
  if rows.isEmpty then ⟨none, none, none, none, none, none⟩
  else
    match rows.filterMap (·.recovery_score) with
    | [] => ⟨none, none, none, none, none, none⟩
    | s :: ss =>
        let scores := s :: ss
        let latest := (s :: ss).getLast (List.cons_ne_nil s ss)
        let mean := list_mean scores
        let zone := if latest < 34 then "red" else if latest < 67 then "yellow" else "green"
        let days_since_green :=
          match (List.range scores.length).reverse.find?
              (fun i => decide ((67 : ℚ) ≤ scores.getD i 0)) with
          | some i => scores.length - 1 - i
          | none => scores.length
        ⟨some (roundq1 latest), some zone, some (roundq1 mean),
          if 0 < mean then some (roundq1 (latest / mean * 100)) else none,
          some (recovery_trend_impl scores), some days_since_green⟩

/-- Spec-side debt trend, from the spec's words: sign comparison of last
vs first of the most recent 3 readings (or all of them when fewer). -/
def debt_trend_spec (ds : List ℚ) : String :=
  if (ds.drop (ds.length - min 3 ds.length)).head?.getD 0
      < (ds.drop (ds.length - min 3 ds.length)).getLast?.getD 0 then "worsening"
  else if (ds.drop (ds.length - min 3 ds.length)).getLast?.getD 0
      < (ds.drop (ds.length - min 3 ds.length)).head?.getD 0 then "improving"
  else "stable"

/-- Spec-side recovery trend, from the spec's words: sign comparison of
the last two readings. -/
def recovery_trend_spec (ss : List ℚ) : String :=
  if (ss.drop (ss.length - min 2 ss.length)).head?.getD 0
      < (ss.drop (ss.length - min 2 ss.length)).getLast?.getD 0 then "improving"
  else if (ss.drop (ss.length - min 2 ss.length)).getLast?.getD 0
      < (ss.drop (ss.length - min 2 ss.length)).head?.getD 0 then "declining"
  else "stable"

/-! ## Activity classifier (`activity.py`) -/

/-- The `_SEDENTARY_ENERGY` of `activity.py`. -/
def SEDENTARY_ENERGY : ℚ := 50

/-- The `_LIGHT_ENERGY` of `activity.py`. -/
def LIGHT_ENERGY : ℚ := 200

/-- The `_MODERATE_ENERGY` of `activity.py`. -/
def MODERATE_ENERGY : ℚ := 600

/-- The `_classify_epoch` of `activity.py`: per-epoch activity level from
accelerometer energy and heart rate. -/
def classify_epoch (energy hr : ℚ) : String :=
  if energy < SEDENTARY_ENERGY ∧ hr < 80 then "sedentary"
  else if energy < LIGHT_ENERGY then "light"
  else if energy < MODERATE_ENERGY ∨ (80 ≤ hr ∧ hr < 100) then "moderate"
  else "vigorous"

/-! ## Circadian model (`circadian.py`) and HRV trend (`hrv.py`)

Only the insufficient-data paths are claim-relevant.  The ≥ 6-sample
branch of `analyse_circadian` calls `scipy.optimize.curve_fit` (an
external numeric collaborator) and is modelled as an oracle parameter;
the 2-hour `hourly_bins` table and the session-log sleep-timing fields
(display data no claim references) are omitted. -/

/-- One test-score row as read by `analyse_circadian`. -/
structure CircRow where
  type : String
  hour : ℚ
  score : Option ℚ
deriving DecidableEq, Repr

/-- The `analyse_circadian` result record (claim-relevant fields). -/
structure CircResult where
  cosinor_fit : Bool
  mesor : Option ℚ
  amplitude : Option ℚ
  acrophase_hour : Option ℚ
  estimated_peak_window : Option (ℚ × ℚ)
  worst_window : Option (ℚ × ℚ)
  cosinor_n : ℕ
  peak_score_variance : Option ℚ
  chronotype_estimate : Option String
deriving DecidableEq, Repr

/-- The `(t_fit, y_fit)` pairs of `analyse_circadian`: READY rows with a
non-NaN score. -/
def circ_points (rows : List CircRow) : List (ℚ × ℚ) :=
  (rows.filter (fun r => r.type == "READY")).filterMap
    (fun r => r.score.map (fun s => (r.hour, s)))

/-- The `analyse_circadian` of `circadian.py`: empty-input early return,
insufficient-data (< 6 samples) mean-only return, else the curve-fit
branch (the oracle). -/
def analyse_circadian (fit_branch : List (ℚ × ℚ) → CircResult)
    (rows : List CircRow) : CircResult :=
  if (rows.filter (fun r => r.type == "READY")).isEmpty then
    ⟨false, none, none, none, none, none, 0, none, none⟩
  else
    if (circ_points rows).length < 6 then
      { cosinor_fit := false
        mesor := if (circ_points rows).isEmpty then none
          else some (list_mean ((circ_points rows).map (·.2)))
        amplitude := none
        acrophase_hour := none
        estimated_peak_window := none
        worst_window := none
        cosinor_n := (circ_points rows).length
        peak_score_variance := none
        chronotype_estimate := none }
    else fit_branch (circ_points rows)

/-- One sensor epoch as read by `analyse_hrv` (fields of the validity
filter plus the date key of the daily grouping). -/
structure HEpoch where
  wear_on : Bool
  rmssd : Option ℚ
  confidence : Option ℚ
  date : String
deriving DecidableEq, Repr

/-- The `_valid_hrv` of `hrv.py`: wear-on epochs with RMSSD > 0 and
confidence above 0.7. -/
def valid_hrv (epochs : List HEpoch) : List HEpoch :=
  epochs.filter (fun e => e.wear_on &&
    (e.rmssd.elim false (fun v => decide (0 < v))) &&
    (e.confidence.elim false (fun c => decide (7/10 < c))))

/-- Ordinary least-squares slope of `ys` against index
(`stats.linregress`). -/
def ols_slope (ys : List ℚ) : ℚ :=
  let n : ℚ := ys.length
  let xs := (List.range ys.length).map (fun i => (i : ℚ))
  (n * (List.zipWith (· * ·) xs ys).sum - xs.sum * ys.sum)
    / (n * (xs.map (fun x => x * x)).sum - xs.sum * xs.sum)

/-- Mean RMSSD of the valid epochs of one date (one `groupby` group). -/
def daily_mean_rmssd (epochs : List HEpoch) (d : String) : ℚ :=
  list_mean ((valid_hrv epochs).filterMap
    (fun e => if e.date == d then e.rmssd else none))

/-- The `rmssd_7d_slope` field of `analyse_hrv`: OLS slope of daily mean
RMSSD against day index, `none` with no valid epochs or fewer than 2
distinct days. -/
def rmssd_7d_slope (epochs : List HEpoch) : Option ℚ :=
  let valid := valid_hrv epochs
  if valid.isEmpty then none
  else
    let dates := ((valid.map (·.date)).dedup).mergeSort (fun a b => decide (a ≤ b))
    if dates.length < 2 then none
    else some (ols_slope (dates.map (fun d => daily_mean_rmssd epochs d)))

/-! ## Agent payload stripping (`agent_payload.py`)

`_strip_nulls` over the JSON-like values the payload is built from.  The
numpy-scalar coercions of the Python function are identities here and the
payload assembly (`_build_meta` …) passes input substructures through
unchanged, so the stripping of the assembled dict is the claim-relevant
step. -/

/-- A JSON-like structured value. -/
inductive Val where
  | vnull : Val
  | num : ℚ → Val
  | str : String → Val
  | bool : Bool → Val
  | arr : List Val → Val
  | obj : List (String × Val) → Val

/-- The `v is None`. -/
def is_null : Val → Bool
  | .vnull => true
  | _ => false

/-- The `isinstance(v, dict) and not v`. -/
def is_empty_obj : Val → Bool
  | .obj [] => true
  | _ => false

/-- An empty container: empty dict or empty list. -/
def is_empty_container : Val → Bool
  | .obj [] => true
  | .arr [] => true
  | _ => false

mutual

/-- The `_strip_nulls` of `agent_payload.py`: `None` is removed; a dict keeps
the stripped entries that are neither `None` nor empty dicts, and becomes
`None` itself when nothing is left; a list keeps its stripped non-`None`
elements (an empty list survives); scalars pass through. -/
def strip_nulls : Val → Option Val
  | .vnull => none
  | .num q => some (.num q)
  | .str s => some (.str s)
  | .bool b => some (.bool b)
  | .arr l => some (.arr (strip_arr l))
  | .obj kvs =>
      if (strip_obj kvs).isEmpty then none else some (.obj (strip_obj kvs))

/-- The list comprehension of `_strip_nulls`: strip elements, drop the
`None` results. -/
def strip_arr : List Val → List Val
  | [] => []
  | v :: vs =>
      match strip_nulls v with
      | none => strip_arr vs
      | some w => w :: strip_arr vs

/-- The dict loop of `_strip_nulls`: strip values, skip `None` and
empty-dict results. -/
def strip_obj : List (String × Val) → List (String × Val)
  | [] => []
  | (k, v) :: kvs =>
      match strip_nulls v with
      | none => strip_obj kvs
      | some w => if is_empty_obj w then strip_obj kvs else (k, w) :: strip_obj kvs

end

/-- The final step of `build_agent_payload` (`return _strip_nulls(payload)`);
the payload assembly above it passes input substructures (for example
`trends`) through unchanged. -/
def build_agent_payload (payload : Val) : Option Val :=
  strip_nulls payload

mutual

/-- Amended claim predicate: no dict entry is null and none is an empty
dict, at any depth. -/
def amended_ok : Val → Bool
  | .arr l => ok_arr l
  | .obj kvs => ok_obj kvs
  | _ => true

def ok_arr : List Val → Bool
  | [] => true
  | v :: vs => amended_ok v && ok_arr vs

def ok_obj : List (String × Val) → Bool
  | [] => true
  | (_, v) :: kvs => !is_null v && !is_empty_obj v && amended_ok v && ok_obj kvs

end

mutual

/-- The claim's predicate as stated: no dict entry is null and none is an
empty container (empty dict or empty list), at any depth. -/
def claim_ok : Val → Bool
  | .arr l => claim_arr l
  | .obj kvs => claim_obj kvs
  | _ => true

def claim_arr : List Val → Bool
  | [] => true
  | v :: vs => claim_ok v && claim_arr vs

def claim_obj : List (String × Val) → Bool
  | [] => true
  | (_, v) :: kvs => !is_null v && !is_empty_container v && claim_ok v && claim_obj kvs

end

/-! ## Concrete inputs used in witnesses -/

/-- A one-day readiness input used in witnesses. -/
def wit_readiness : ReadinessInput :=
  { performance :=
      { ready_baseline := some 180
        daily_ready := [⟨"2026-01-05", some 160⟩]
        daily_self_report := [⟨"2026-01-05", some 3, some 2⟩] }
    hrv :=
      { rmssd_baseline := some 50
        morning_rmssd := some 45
        rmssd_pct_baseline := some 90
        diurnal_profile := [(8, 50)]
        rmssd_7d_slope := some 1 } }

/-- An HRV output agreeing with `wit_readiness`'s only on
`rmssd_pct_baseline`. -/
def wit_hrv_alt : HrvOut :=
  { rmssd_baseline := none
    morning_rmssd := none
    rmssd_pct_baseline := some 90
    diurnal_profile := []
    rmssd_7d_slope := none }

/-! ## Lemmas and claim theorems -/

theorem base_tier_mem (ready_score rmssd_pct : Option ℚ) :
    base_tier ready_score rmssd_pct ∈ tier_names := by
  unfold base_tier
  match ready_score with
  | none => simp [tier_names]
  | some score =>
    simp only
    cases h : TIERS.find? (fun t =>
        match rmssd_pct with
        | some r => decide (t.rmssd_min ≤ r ∧ t.ready_min ≤ score)
        | none => decide (t.ready_min ≤ score)) with
    | none => simp [tier_names]
    | some t =>
      have ht := List.mem_of_find?_eq_some h
      simp only [Option.map_some', Option.getD_some]
      fin_cases ht <;> simp [tier_names]

theorem classify_tier_mem (ready_score rmssd_pct stress sleepiness : Option ℚ) :
    classify_tier ready_score rmssd_pct stress sleepiness ∈ tier_names := by
  unfold classify_tier
  cases h : sr_cap stress sleepiness with
  | none => exact base_tier_mem _ _
  | some cap =>
    simp only
    split
    · unfold sr_cap at h
      rcases stress with _ | s <;> rcases sleepiness with _ | sl <;> simp at h
      split_ifs at h <;> simp_all [tier_names]
    · exact base_tier_mem _ _

theorem classify_tier_not_promoting (ready_score rmssd_pct stress sleepiness : Option ℚ) :
    tier_rank (classify_tier ready_score rmssd_pct none none) ≤
      tier_rank (classify_tier ready_score rmssd_pct stress sleepiness) := by
  unfold tier_rank classify_tier
  rw [show sr_cap none none = none from rfl]
  simp only
  cases h : sr_cap stress sleepiness with
  | none => exact le_refl _
  | some cap =>
    simp only
    split
    · next hlt => exact le_of_lt hlt
    · exact le_refl _

theorem classify_tier_cap_recovery (ready_score rmssd_pct : Option ℚ) (s sl : ℚ)
    (hs : 7 < s) (hsl : 7 < sl) :
    classify_tier ready_score rmssd_pct (some s) (some sl) = "Recovery" := by
  unfold classify_tier sr_cap
  simp only [if_pos (And.intro hs hsl)]
  have hb := base_tier_mem ready_score rmssd_pct
  set b := base_tier ready_score rmssd_pct with hbdef
  simp only [tier_names, List.mem_cons, List.not_mem_nil, or_false] at hb
  rcases hb with h | h | h | h | h <;> rw [h] <;> decide

theorem classify_tier_cap_low (ready_score rmssd_pct : Option ℚ) (s sl : ℚ)
    (hs : 5 < s) (hsl : 5 < sl) :
    3 ≤ tier_rank (classify_tier ready_score rmssd_pct (some s) (some sl)) := by
  by_cases h7 : 7 < s ∧ 7 < sl
  · rw [classify_tier_cap_recovery ready_score rmssd_pct s sl h7.1 h7.2]
    decide
  · unfold classify_tier sr_cap tier_rank
    simp only [if_neg h7, if_pos (And.intro hs hsl)]
    have hb := base_tier_mem ready_score rmssd_pct
    set b := base_tier ready_score rmssd_pct with hbdef
    simp only [tier_names, List.mem_cons, List.not_mem_nil, or_false] at hb
    rcases hb with h | h | h | h | h <;> rw [h] <;> decide

theorem mem_upsert {α : Type} {m : List (String × α)} {k : String} {v : α}
    {p : String × α} (h : p ∈ upsert m k v) : p = (k, v) ∨ p ∈ m := by
  induction m with
  | nil => simpa [upsert] using h
  | cons q rest ih =>
    unfold upsert at h
    split_ifs at h with hk
    · rcases List.mem_cons.mp h with h | h
      · exact Or.inl h
      · exact Or.inr (List.mem_cons_of_mem _ h)
    · rcases List.mem_cons.mp h with h | h
      · exact Or.inr (h ▸ List.mem_cons_self _ _)
      · rcases ih h with h | h
        · exact Or.inl h
        · exact Or.inr (List.mem_cons_of_mem _ h)

theorem tiers_by_date_inv (results : ReadinessInput) {p : String × TierInfo}
    (hp : p ∈ tiers_by_date results) :
    ∃ day ∈ results.performance.daily_ready, p = tier_entry results day := by
  unfold tiers_by_date at hp
  suffices h : ∀ (l : List DailyReady) (init : List (String × TierInfo)),
      (∀ q ∈ init, ∃ day ∈ results.performance.daily_ready, q = tier_entry results day) →
      (∀ day ∈ l, day ∈ results.performance.daily_ready) →
      ∀ q ∈ l.foldl (fun m day =>
        upsert m (tier_entry results day).1 (tier_entry results day).2) init,
      ∃ day ∈ results.performance.daily_ready, q = tier_entry results day by
    exact h results.performance.daily_ready [] (by simp) (fun d hd => hd) p hp
  intro l
  induction l with
  | nil => intro init hinit _ q hq; exact hinit q hq
  | cons d rest ih =>
    intro init hinit hsub q hq
    simp only [List.foldl_cons] at hq
    refine ih _ ?_ (fun d' hd' => hsub d' (List.mem_cons_of_mem _ hd')) q hq
    intro q' hq'
    rcases mem_upsert hq' with h | h
    · exact ⟨d, hsub d (List.mem_cons_self _ _), by rw [h]⟩
    · exact hinit q' h

theorem round1_nonneg {x : ℝ} (hx : 0 ≤ x) : 0 ≤ round1 x := by
  unfold round1
  have h10 : (0 : ℝ) ≤ 10 * x := by linarith
  have : (0 : ℤ) ≤ round (10 * x) := by
    rw [round_eq]
    exact Int.floor_nonneg.mpr (by linarith)
  positivity

theorem raw_to_borg_bounds (raw divisor scale : ℝ) (hd : 0 < divisor)
    (hs : 0 ≤ scale) :
    0 ≤ raw_to_borg raw divisor scale ∧ raw_to_borg raw divisor scale ≤ STRAIN_CAP := by
  unfold raw_to_borg
  split_ifs with h
  · exact ⟨le_refl 0, by unfold STRAIN_CAP; norm_num⟩
  · push_neg at h
    have hlog : 0 ≤ Real.log (1 + raw / divisor) :=
      Real.log_nonneg (by nlinarith [div_nonneg (le_of_lt h) (le_of_lt hd)])
    have hr1 : 0 ≤ round1 (scale * Real.log (1 + raw / divisor)) :=
      round1_nonneg (mul_nonneg hs hlog)
    exact ⟨le_min (by unfold STRAIN_CAP; norm_num) hr1, min_le_left _ _⟩

theorem daily_strain_record_bounds (date : String) (epochs : List StrainEpoch)
    (max_hr : ℚ) :
    let r := daily_strain_record date epochs max_hr
    (0 ≤ r.strain_score ∧ r.strain_score ≤ 21) ∧
    (0 ≤ r.cardiovascular_strain ∧ r.cardiovascular_strain ≤ 21) ∧
    (0 ≤ r.muscular_strain ∧ r.muscular_strain ≤ 21) := by
  intro r
  have hcv := raw_to_borg_bounds (raw_cv epochs max_hr) CV_DIVISOR CV_SCALE
    (by unfold CV_DIVISOR; norm_num) (by unfold CV_SCALE; norm_num)
  have hmu := raw_to_borg_bounds (muscular_energy epochs max_hr : ℝ) MUSC_DIVISOR MUSC_SCALE
    (by unfold MUSC_DIVISOR; norm_num) (by unfold MUSC_SCALE; norm_num)
  have hcap : STRAIN_CAP = (21 : ℝ) := rfl
  have hcomb : 0 ≤ r.strain_score ∧ r.strain_score ≤ 21 := by
    constructor
    · exact le_min (by rw [hcap] at *; norm_num)
        (round1_nonneg (by nlinarith [hcv.1, hmu.1]))
    · calc r.strain_score ≤ STRAIN_CAP := min_le_left _ _
        _ = 21 := hcap
  refine ⟨hcomb, ⟨hcv.1, ?_⟩, ⟨hmu.1, ?_⟩⟩
  · calc r.cardiovascular_strain ≤ STRAIN_CAP := hcv.2
      _ = 21 := hcap
  · calc r.muscular_strain ≤ STRAIN_CAP := hmu.2
      _ = 21 := hcap

theorem find?_congr_on {α : Type} {p q : α → Bool} :
    ∀ {l : List α}, (∀ a ∈ l, p a = q a) → l.find? p = l.find? q := by
  intro l
  induction l with
  | nil => intro _; rfl
  | cons a t ih =>
    intro h
    have ha := h a (List.mem_cons_self a t)
    cases hpa : p a with
    | true =>
      rw [List.find?_cons_of_pos _ hpa, List.find?_cons_of_pos _ (ha ▸ hpa)]
    | false =>
      rw [List.find?_cons_of_neg _ (by simp [hpa]),
        List.find?_cons_of_neg _ (by simp [← ha, hpa])]
      exact ih (fun a' ha' => h a' (List.mem_cons_of_mem _ ha'))

theorem find?_append_all_false {α : Type} {p : α → Bool} :
    ∀ {l₁ : List α} (l₂ : List α), (∀ a ∈ l₁, p a = false) →
    (l₁ ++ l₂).find? p = l₂.find? p := by
  intro l₁
  induction l₁ with
  | nil => intro l₂ _; rfl
  | cons a t ih =>
    intro l₂ h
    rw [List.cons_append, List.find?_cons_of_neg _ (by simp [h a (List.mem_cons_self a t)])]
    exact ih l₂ (fun a' ha' => h a' (List.mem_cons_of_mem _ ha'))

theorem find_sustained_go_eq (rest : List ℕ) :
    ∀ (prev cons : ℕ), 1 ≤ cons → cons ≤ 4 → cons ≤ prev + 1 →
    (List.range' (prev + 1 - cons) cons ++ rest).Pairwise (· < ·) →
    find_sustained_go prev cons rest =
      first_run_start (List.range' (prev + 1 - cons) cons ++ rest) := by
  induction rest with
  | nil =>
    intro prev cons h1 h4 hp _
    simp only [find_sustained_go, List.append_nil]
    symm
    unfold first_run_start
    rw [List.find?_eq_none]
    intro a ha
    rw [List.mem_range'_1] at ha
    unfold run_start
    rw [decide_eq_true_eq]
    rintro ⟨-, -, -, m4⟩
    rw [List.mem_range'_1] at m4
    omega
  | cons x xs ih =>
    intro prev cons h1 h4 hp hpw
    by_cases hx : x = prev + 1
    · subst hx
      by_cases h5 : 5 ≤ cons + 1
      · have hc : cons = 4 := by omega
        subst hc
        simp only [find_sustained_go, if_pos rfl, if_pos h5]
        have hprev3 : 3 ≤ prev := by omega
        have hsplit : List.range' (prev + 1 - 4) 4 ++ (prev + 1) :: xs
            = (prev - 3) :: (List.range' (prev - 2) 3 ++ (prev + 1) :: xs) := by
          rw [show prev + 1 - 4 = prev - 3 from by omega, List.range'_succ,
            show prev - 3 + 1 = prev - 2 from by omega, List.cons_append]
        unfold first_run_start
        rw [hsplit, List.find?_cons_of_pos]
        · simp [show prev + 1 - 4 = prev - 3 from by omega]
        · unfold run_start
          rw [decide_eq_true_eq]
          refine ⟨?_, ?_, ?_, ?_⟩
          · refine List.mem_cons_of_mem _ (List.mem_append_left _ ?_)
            rw [List.mem_range'_1]; omega
          · refine List.mem_cons_of_mem _ (List.mem_append_left _ ?_)
            rw [List.mem_range'_1]; omega
          · refine List.mem_cons_of_mem _ (List.mem_append_left _ ?_)
            rw [List.mem_range'_1]; omega
          · rw [show prev - 3 + 4 = prev + 1 from by omega]
            exact List.mem_cons_of_mem _ (List.mem_append_right _ (List.mem_cons_self _ _))
      · simp only [find_sustained_go, if_pos rfl, if_neg h5]
        have heq : List.range' (prev + 1 + 1 - (cons + 1)) (cons + 1) ++ xs
            = List.range' (prev + 1 - cons) cons ++ (prev + 1) :: xs := by
          rw [show prev + 1 + 1 - (cons + 1) = prev + 1 - cons from by omega]
          have hcat : List.range' (prev + 1 - cons) (cons + 1)
              = List.range' (prev + 1 - cons) cons ++ [prev + 1 - cons + 1 * cons] :=
            List.range'_concat _ _
          rw [hcat, show prev + 1 - cons + 1 * cons = prev + 1 from by omega,
            List.append_assoc, List.singleton_append]
        rw [← heq]
        exact ih (prev + 1) (cons + 1) (by omega) (by omega) (by omega)
          (by rw [heq]; exact hpw)
    · simp only [find_sustained_go, if_neg hx]
      have hxrange : List.range' (x + 1 - 1) 1 = [x] := by
        rw [show x + 1 - 1 = x from by omega, List.range'_one]
      have hpair := List.pairwise_append.mp hpw
      have hxslt : ∀ b ∈ xs, x < b := (List.pairwise_cons.mp hpair.2.1).1
      have hprevmem : prev ∈ List.range' (prev + 1 - cons) cons := by
        rw [List.mem_range'_1]; omega
      have hprevx : prev < x := hpair.2.2 prev hprevmem x (List.mem_cons_self _ _)
      have hx2 : prev + 2 ≤ x := by omega
      rw [ih x 1 (le_refl 1) (by omega) (by omega)
        (by rw [hxrange, List.singleton_append]; exact hpair.2.1)]
      rw [hxrange, List.singleton_append]
      -- first_run_start (x :: xs) = first_run_start (range' _ _ ++ x :: xs)
      unfold first_run_start
      have hfalse : ∀ a ∈ List.range' (prev + 1 - cons) cons,
          run_start (List.range' (prev + 1 - cons) cons ++ x :: xs) a = false := by
        intro a ha
        rw [List.mem_range'_1] at ha
        unfold run_start
        rw [decide_eq_false_iff_not]
        rintro ⟨m1, m2, m3, m4⟩
        have hk : prev + 1 = a + 1 ∨ prev + 1 = a + 2 ∨ prev + 1 = a + 3 ∨
            prev + 1 = a + 4 := by omega
        have hmem : prev + 1 ∈ List.range' (prev + 1 - cons) cons ++ x :: xs := by
          rcases hk with h | h | h | h
          · rw [← h] at m1; exact m1
          · rw [← h] at m2; exact m2
          · rw [← h] at m3; exact m3
          · rw [← h] at m4; exact m4
        rcases List.mem_append.mp hmem with hL | hR
        · rw [List.mem_range'_1] at hL; omega
        · rcases List.mem_cons.mp hR with h | h
          · omega
          · exact absurd (hxslt _ h) (by omega)
      have hcong : ∀ a ∈ x :: xs,
          run_start (List.range' (prev + 1 - cons) cons ++ x :: xs) a
            = run_start (x :: xs) a := by
        intro a ha
        have hax : x ≤ a := by
          rcases List.mem_cons.mp ha with h | h
          · omega
          · exact le_of_lt (hxslt _ h)
        have hnot : ∀ i, 1 ≤ i → a + i ∉ List.range' (prev + 1 - cons) cons := by
          intro i hi hmem
          rw [List.mem_range'_1] at hmem
          omega
        unfold run_start
        rw [decide_eq_decide]
        simp only [List.mem_append]
        rw [or_iff_right (hnot 1 (by omega)), or_iff_right (hnot 2 (by omega)),
          or_iff_right (hnot 3 (by omega)), or_iff_right (hnot 4 (by omega))]
      rw [find?_append_all_false _ hfalse, find?_congr_on hcong]

theorem find_sustained_eq {l : List ℕ} (h : l.Pairwise (· < ·)) :
    find_sustained l = first_run_start l := by
  cases l with
  | nil => rfl
  | cons a t =>
    have := find_sustained_go_eq t a 1 (le_refl 1) (by omega) (by omega)
      (by rw [show a + 1 - 1 = a from by omega, List.range'_one, List.singleton_append]
          exact h)
    rw [show (find_sustained (a :: t) : Option ℕ) = find_sustained_go a 1 t from rfl, this,
      show a + 1 - 1 = a from by omega, List.range'_one, List.singleton_append]

theorem wake_positions_pairwise (night : List SEpoch) (onsetT : ℕ) :
    (wake_positions night onsetT).Pairwise (· < ·) := by
  have h1 : (post_positions night onsetT).Pairwise (· < ·) :=
    (List.pairwise_lt_range _).sublist (List.filter_sublist _)
  exact h1.sublist (List.filter_sublist _)

theorem find?_some_first {l : List ℕ} (hpw : l.Pairwise (· < ·)) {f : ℕ → Bool} {a : ℕ}
    (h : l.find? f = some a) : ∀ b ∈ l, f b = true → a ≤ b := by
  induction l with
  | nil => simp at h
  | cons c t ih =>
    cases hc : f c with
    | true =>
      rw [List.find?_cons_of_pos _ hc] at h
      obtain rfl : c = a := by simpa using h
      intro b hb _
      rcases List.mem_cons.mp hb with rfl | hb
      · exact le_refl _
      · exact le_of_lt ((List.pairwise_cons.mp hpw).1 b hb)
    | false =>
      rw [List.find?_cons_of_neg _ (by simp [hc])] at h
      intro b hb hfb
      rcases List.mem_cons.mp hb with rfl | hb
      · rw [hfb] at hc; cases hc
      · exact ih (List.pairwise_cons.mp hpw).2 h b hb hfb

/-- Claim C3 (amended): for every night with a detected onset, the sleep
offset is the first wake-candidate index starting a run of at least 5
consecutive post-onset epochs with HR ≥ 70; when wake candidates exist but
no such run, the offset is the first wake candidate (not the last
available epoch); when no wake candidate exists the offset is the last
post-onset epoch; and the spec's 23:00/06:00 night yields onset 1380
(23:00), offset 1800 (06:00) and duration 420 minutes. -/
theorem sleep_offset_rule (night : List SEpoch) (r : NightRec)
    (h : analyse_sleep_night night = some r) :
    ((wake_positions night r.sleep_onset = [] →
        ∀ i, (post_positions night r.sleep_onset).getLast? = some i →
          r.sleep_offset = epoch_t night i) ∧
      (∀ p ps, wake_positions night r.sleep_onset = p :: ps →
        r.sleep_offset = epoch_t night ((first_run_start (p :: ps)).getD p) ∧
        (∀ q, first_run_start (p :: ps) = some q →
          run_start (p :: ps) q = true ∧
          ∀ q' ∈ p :: ps, run_start (p :: ps) q' = true → q ≤ q') ∧
        (first_run_start (p :: ps) = none →
          ∀ q ∈ p :: ps, run_start (p :: ps) q = false))) ∧
    analyse_sleep_night ex_night = some ⟨1380, 1800, 420⟩ := by
  refine ⟨?_, by decide⟩
  unfold analyse_sleep_night at h
  cases ho : onset_epoch night with
  | none => rw [ho] at h; cases h
  | some o =>
    rw [ho] at h
    simp only at h
    by_cases hd : offset_time night o.t - o.t < 60
    · rw [if_pos hd] at h; cases h
    · rw [if_neg hd] at h
      obtain rfl : (⟨o.t, offset_time night o.t, offset_time night o.t - o.t⟩ : NightRec) = r := by
        simpa using h
      constructor
      · intro hw i hlast
        show offset_time night o.t = epoch_t night i
        simp only [offset_time, hw, hlast]
      · intro p ps hw
        have hpw : (p :: ps).Pairwise (· < ·) := hw ▸ wake_positions_pairwise night o.t
        refine ⟨?_, ?_, ?_⟩
        · show offset_time night o.t = _
          simp only [offset_time, hw]
          rw [find_sustained_eq hpw]
        · intro q hq
          exact ⟨List.find?_some hq,
            fun q' hq' hrs => find?_some_first hpw hq q' hq' hrs⟩
        · intro hnone q hqmem
          have h' := List.find?_eq_none.mp hnone q hqmem
          simpa using h'

/-- Claim C3, counterexample to the stated fallback: on `cex_night` a wake
candidate exists, no 5-consecutive run exists, the last available epoch is
at t = 1800, yet the detector reports offset 1500 (the first wake
candidate). -/
theorem sleep_offset_cex :
    analyse_sleep_night cex_night = some ⟨1380, 1500, 120⟩ ∧
    wake_positions cex_night 1380 ≠ [] ∧
    first_run_start (wake_positions cex_night 1380) = none ∧
    (post_positions cex_night 1380).getLast? = some 4 ∧
    epoch_t cex_night 4 = 1800 ∧ (1500 : ℕ) ≠ 1800 := by
  decide

/-- Claim C3 witness: the amended offset rule applied to the concrete
23:00/06:00 night. -/
theorem sleep_offset_rule_witness :
    analyse_sleep_night ex_night = some ⟨1380, 1800, 420⟩ ∧
    wake_positions ex_night 1380 = [4, 5, 6, 7, 8] ∧
    first_run_start [4, 5, 6, 7, 8] = some 4 ∧
    (⟨1380, 1800, 420⟩ : NightRec).sleep_offset
      = epoch_t ex_night ((first_run_start [4, 5, 6, 7, 8]).getD 4) := by
  have happ := (sleep_offset_rule ex_night ⟨1380, 1800, 420⟩ (by decide)).1.2
    4 [5, 6, 7, 8] (by decide)
  exact ⟨by decide, by decide, by decide, happ.1⟩

/-- Claim C4 (amended): for every Ready series with at least 5 entries,
at least 5 means that are not `None` among the last 7 days (NaN means
count), and at least 3 negative consecutive-mean deltas (a delta touching
a NaN mean is NaN and never negative), `detect_patterns` emits
`compounding_readiness_debt` with severity `warning`. -/
theorem compounding_readiness_fires (inp : PatternsInput)
    (h5 : 5 ≤ inp.daily_ready.length)
    (hm : 5 ≤ (kept_means (inp.daily_ready.drop (inp.daily_ready.length - 7))).length)
    (hneg : 3 ≤ ((List.zipWith (fun a b => float_sub b a)
        (kept_means (inp.daily_ready.drop (inp.daily_ready.length - 7)))
        (kept_means (inp.daily_ready.drop (inp.daily_ready.length - 7))).tail).filter
        float_lt_zero).length) :
    ∃ p ∈ detect_patterns inp,
      p.pattern = "compounding_readiness_debt" ∧ p.severity = "warning" := by
  have hr : rule_compounding inp.daily_ready =
      [⟨"compounding_readiness_debt", "warning",
        some (str_take10 (((inp.daily_ready.drop (inp.daily_ready.length - 7)).getLast?.map
          (·.date)).getD ""))⟩] := by
    unfold rule_compounding
    rw [if_pos h5]
    simp only
    rw [if_pos hm, if_pos hneg]
  refine ⟨⟨"compounding_readiness_debt", "warning",
    some (str_take10 (((inp.daily_ready.drop (inp.daily_ready.length - 7)).getLast?.map
      (·.date)).getD ""))⟩, ?_, rfl, rfl⟩
  unfold detect_patterns
  rw [hr]
  simp

/-- Faithfulness check of the NaN semantics: on daily means
`[10, NaN, 9, NaN, 8, 7, 6]` all 7 means pass the `is not None` filter,
but only 2 deltas are negative (the other 4 are NaN), so rule 1 emits
nothing — matching the program. -/
theorem rule_compounding_nan_poisoning :
    (kept_means nan_series).length = 7 ∧
    ((List.zipWith (fun a b => float_sub b a)
        (kept_means nan_series) (kept_means nan_series).tail).filter
        float_lt_zero).length = 2 ∧
    rule_compounding nan_series = [] := by
  refine ⟨by decide, ?_, ?_⟩
  · norm_num [nan_series, kept_means, float_sub, float_lt_zero,
      List.zipWith, List.filter, List.filterMap]
  · norm_num [nan_series, rule_compounding, kept_means, float_sub, float_lt_zero,
      List.zipWith, List.filter, List.filterMap]

/-- Claim C4, counterexample to the stated trigger: a 4-day Ready series
whose 3 deltas are all negative, on which `detect_patterns` emits nothing
at all (the rule also requires at least 5 days and 5 kept means). -/
theorem compounding_readiness_cex :
    (3 ≤ ((List.zipWith (fun a b => float_sub b a)
        (kept_means (cex_patterns.daily_ready.drop (cex_patterns.daily_ready.length - 7)))
        (kept_means (cex_patterns.daily_ready.drop
          (cex_patterns.daily_ready.length - 7))).tail).filter float_lt_zero).length) ∧
    detect_patterns cex_patterns = [] := by
  constructor
  · norm_num [cex_patterns, kept_means, float_sub, float_lt_zero,
      List.zipWith, List.filter, List.filterMap]
  · decide

/-- Claim C4 witness: the compounding-readiness rule fires on the spec's
series `[160, 155, 148, 140, 135]`. -/
theorem compounding_readiness_fires_witness :
    ∃ p ∈ detect_patterns wit_patterns,
      p.pattern = "compounding_readiness_debt" ∧ p.severity = "warning" :=
  compounding_readiness_fires wit_patterns (by decide) (by decide)
    (by norm_num [wit_patterns, kept_means, float_sub, float_lt_zero,
      List.zipWith, List.filter, List.filterMap])

theorem getElem?_eq_getD {α : Type} {l : List α} {i : ℕ} (h : i < l.length) (d : α) :
    l[i]? = some (l.getD i d) := by
  rw [List.getD_eq_getElem?_getD]
  cases hq : l[i]? with
  | none => rw [List.getElem?_eq_none_iff] at hq; omega
  | some a => rfl

theorem getLast?_drop {α : Type} {l : List α} {k : ℕ} (h : k < l.length) :
    (l.drop k).getLast? = l.getLast? := by
  induction l generalizing k with
  | nil => simp at h
  | cons a t ih =>
    cases k with
    | zero => rfl
    | succ k =>
      simp only [List.drop_succ_cons]
      simp only [List.length_cons] at h
      rw [ih (by simpa using h)]
      rcases t with _ | ⟨b, u⟩
      · simp at h
      · rw [List.getLast?_cons_cons]

/-- Claim C5: nap tagging by local start hour, nap tagging of all but the
longest same-night session, and the spec's 400/90-minute instance. -/
theorem session_type_rules (sessions : List Session) (i : ℕ) (hi : i < sessions.length) :
    ((10 ≤ (sessions.getD i no_session).start_hour ∧
        (sessions.getD i no_session).start_hour ≤ 17) →
      (classify_session_type sessions).getD i "" = "nap") ∧
    ((1 < (group_idxs sessions (sessions.getD i no_session).night_date).length ∧
        i ≠ longest_idx sessions (sessions.getD i no_session).night_date) →
      (classify_session_type sessions).getD i "" = "nap") ∧
    classify_session_type ex_sessions = ["primary", "nap"] := by
  have hc : (classify_session_type sessions).getD i "" =
      (if 1 < (group_idxs sessions (sessions.getD i no_session).night_date).length ∧
          i ≠ longest_idx sessions (sessions.getD i no_session).night_date then "nap"
       else (base_types sessions).getD i "primary") := by
    unfold classify_session_type
    rw [List.getD_eq_getElem?_getD, List.getElem?_map, List.getElem?_range hi]
    rfl
  refine ⟨?_, ?_, by decide⟩
  · intro hh
    rw [hc]
    split_ifs with hcond
    · rfl
    · unfold base_types
      rw [List.getD_eq_getElem?_getD, List.getElem?_map, getElem?_eq_getD hi no_session]
      simp only [Option.map_some', Option.getD_some]
      rw [if_pos hh]
  · intro hcond
    rw [hc, if_pos hcond]

/-- Claim C5 witness: the 90-minute same-night session of the spec's
instance is tagged `nap` by the longest-session rule. -/
theorem session_type_rules_witness :
    (1 < (group_idxs ex_sessions (ex_sessions.getD 1 no_session).night_date).length ∧
      1 ≠ longest_idx ex_sessions (ex_sessions.getD 1 no_session).night_date) ∧
    (classify_session_type ex_sessions).getD 1 "" = "nap" ∧
    classify_session_type ex_sessions = ["primary", "nap"] := by
  have h := session_type_rules ex_sessions 1 (by decide)
  exact ⟨by decide, h.2.1 (by decide), h.2.2⟩

theorem debt_trend_impl_eq {ds : List ℚ} (h : ds ≠ []) :
    debt_trend_impl ds = debt_trend_spec ds := by
  unfold debt_trend_impl debt_trend_spec
  by_cases h3 : 3 ≤ ds.length
  · rw [if_pos h3, show min 3 ds.length = 3 from by omega]
  · rw [if_neg h3]
    by_cases h2 : 2 ≤ ds.length
    · rw [if_pos h2,
        show ds.length - min 3 ds.length = 0 from by omega, List.drop_zero]
    · rcases ds with _ | ⟨a, t⟩
      · exact absurd rfl h
      · rcases t with _ | ⟨b, u⟩
        · simp
        · simp only [List.length_cons] at h2; omega

theorem recovery_trend_impl_eq {ss : List ℚ} (h : ss ≠ []) :
    recovery_trend_impl ss = recovery_trend_spec ss := by
  unfold recovery_trend_impl recovery_trend_spec
  by_cases h2 : 2 ≤ ss.length
  · rw [if_pos h2, show min 2 ss.length = 2 from by omega]
    have hh : (ss.drop (ss.length - 2)).head?.getD 0 = ss.getD (ss.length - 2) 0 := by
      rw [List.head?_drop, List.getD_eq_getElem?_getD]
    have hl : (ss.drop (ss.length - 2)).getLast?.getD 0 = ss.getLast?.getD 0 := by
      rw [getLast?_drop (by omega)]
    rw [hh, hl]
  · rcases ss with _ | ⟨a, t⟩
    · exact absurd rfl h
    · rcases t with _ | ⟨b, u⟩
      · simp
      · simp only [List.length_cons] at h2; omega

theorem debt_trend_spec_mem (ds : List ℚ) :
    debt_trend_spec ds ∈ ["worsening", "improving", "stable"] := by
  unfold debt_trend_spec
  split_ifs <;> simp

theorem recovery_trend_spec_mem (ss : List ℚ) :
    recovery_trend_spec ss ∈ ["improving", "declining", "stable"] := by
  unfold recovery_trend_spec
  split_ifs <;> simp

theorem analyse_sleep_debt_trend {rows : List SessRow} {d : ℚ} {ds : List ℚ}
    (h : rows.filterMap (·.sleep_debt_min) = d :: ds) :
    (analyse_sleep_debt rows).trend = some (debt_trend_impl (d :: ds)) := by
  rcases rows with _ | ⟨r, rs⟩
  · simp at h
  · unfold analyse_sleep_debt
    rw [if_neg (by simp), h]

theorem analyse_recovery_trend {rows : List SessRow} {s : ℚ} {ss : List ℚ}
    (h : rows.filterMap (·.recovery_score) = s :: ss) :
    (analyse_recovery rows).trend = some (recovery_trend_impl (s :: ss)) := by
  rcases rows with _ | ⟨r, rs⟩
  · simp at h
  · unfold analyse_recovery
    rw [if_neg (by simp), h]

/-- Claim C7 (amended): for every primary-session history with at least
one non-null debt reading, the sleep-debt trend is one of
worsening/improving/stable and equals the spec's recomputation from the
most recent 3 (or fewer) readings; with at least one non-null recovery
reading, the recovery trend is one of improving/declining/stable and
equals the spec's last-two comparison. -/
theorem trend_recomputation (rows : List SessRow) :
    (∀ d ds, rows.filterMap (·.sleep_debt_min) = d :: ds →
      (analyse_sleep_debt rows).trend = some (debt_trend_spec (d :: ds)) ∧
      debt_trend_spec (d :: ds) ∈ ["worsening", "improving", "stable"]) ∧
    (∀ s ss, rows.filterMap (·.recovery_score) = s :: ss →
      (analyse_recovery rows).trend = some (recovery_trend_spec (s :: ss)) ∧
      recovery_trend_spec (s :: ss) ∈ ["improving", "declining", "stable"]) := by
  constructor
  · intro d ds h
    rw [analyse_sleep_debt_trend h, debt_trend_impl_eq (List.cons_ne_nil d ds)]
    exact ⟨rfl, debt_trend_spec_mem _⟩
  · intro s ss h
    rw [analyse_recovery_trend h, recovery_trend_impl_eq (List.cons_ne_nil s ss)]
    exact ⟨rfl, recovery_trend_spec_mem _⟩

/-- Claim C7, counterexample to the stated quantifier: a non-empty
primary-session history whose readings are all null, on which neither
function returns a trend at all. -/
theorem trend_absent_cex :
    ([(⟨none, none, none, none⟩ : SessRow)] ≠ ([] : List SessRow)) ∧
    (analyse_sleep_debt [⟨none, none, none, none⟩]).trend = none ∧
    (analyse_recovery [⟨none, none, none, none⟩]).trend = none := by
  refine ⟨by simp, rfl, rfl⟩

/-- Claim C7 witness: a 2-reading history with rising debt and falling
recovery yields `worsening` and `declining`. -/
theorem trend_recomputation_witness :
    (analyse_sleep_debt [⟨some 10, none, none, some 50⟩, ⟨some 20, none, none, some 40⟩]).trend
      = some (debt_trend_spec [10, 20]) ∧
    debt_trend_spec [10, 20] = "worsening" ∧
    (analyse_recovery [⟨some 10, none, none, some 50⟩, ⟨some 20, none, none, some 40⟩]).trend
      = some (recovery_trend_spec [50, 40]) ∧
    recovery_trend_spec [50, 40] = "declining" := by
  have h := trend_recomputation
    [⟨some 10, none, none, some 50⟩, ⟨some 20, none, none, some 40⟩]
  exact ⟨(h.1 10 [20] rfl).1, by decide, (h.2 50 [40] rfl).1, by decide⟩

/-- Claim C6 (amended): an epoch with HR in [80, 100) is classified
`moderate` when its energy is at least the light threshold (200); with
energy below 200 the HR override does not apply (the epoch is `light`,
since HR ≥ 80 disables the sedentary branch); and every epoch with energy
below the sedentary threshold and HR below 80 is `sedentary`. -/
theorem classify_epoch_rules (energy hr : ℚ) :
    ((80 ≤ hr ∧ hr < 100) → 200 ≤ energy → classify_epoch energy hr = "moderate") ∧
    ((80 ≤ hr ∧ hr < 100) → energy < 200 → classify_epoch energy hr = "light") ∧
    (energy < 50 → hr < 80 → classify_epoch energy hr = "sedentary") := by
  refine ⟨?_, ?_, ?_⟩
  · intro hhr he
    unfold classify_epoch SEDENTARY_ENERGY LIGHT_ENERGY MODERATE_ENERGY
    rw [if_neg (by rintro ⟨h1, h2⟩; linarith [hhr.1]),
      if_neg (by intro h1; linarith),
      if_pos (Or.inr hhr)]
  · intro hhr he
    unfold classify_epoch SEDENTARY_ENERGY LIGHT_ENERGY MODERATE_ENERGY
    rw [if_neg (by rintro ⟨h1, h2⟩; linarith [hhr.1]), if_pos he]
  · intro he hhr
    unfold classify_epoch SEDENTARY_ENERGY
    rw [if_pos ⟨he, hhr⟩]

/-- Claim C6, counterexample to the stated override: HR 90 with energy 100
is classified `light`, not at least `moderate`. -/
theorem classify_epoch_cex :
    (80 ≤ (90 : ℚ) ∧ (90 : ℚ) < 100) ∧
    classify_epoch 100 90 = "light" ∧
    classify_epoch 100 90 ≠ "moderate" ∧ classify_epoch 100 90 ≠ "vigorous" := by
  refine ⟨by norm_num, ?_, ?_, ?_⟩ <;> decide

/-- Claim C6 witness: the amended rules at energy 300 / HR 90 (moderate),
energy 100 / HR 90 (light) and energy 30 / HR 60 (sedentary). -/
theorem classify_epoch_rules_witness :
    classify_epoch 300 90 = "moderate" ∧
    classify_epoch 100 90 = "light" ∧
    classify_epoch 30 60 = "sedentary" :=
  ⟨(classify_epoch_rules 300 90).1 (by norm_num) (by norm_num),
   (classify_epoch_rules 100 90).2.1 (by norm_num) (by norm_num),
   (classify_epoch_rules 30 60).2.2 (by norm_num) (by norm_num)⟩

/-- Claim C8: with fewer than 6 valid circadian samples the cosinor fit
flag is false, the non-mesor fit fields are all null and the mesor is the
plain sample mean (when any sample exists); with fewer than 2 distinct
valid days the RMSSD 7-day slope is null. -/
theorem insufficient_data_nulls :
    (∀ (fit_branch : List (ℚ × ℚ) → CircResult) (rows : List CircRow),
      (circ_points rows).length < 6 →
      (analyse_circadian fit_branch rows).cosinor_fit = false ∧
      (analyse_circadian fit_branch rows).amplitude = none ∧
      (analyse_circadian fit_branch rows).acrophase_hour = none ∧
      (analyse_circadian fit_branch rows).estimated_peak_window = none ∧
      (analyse_circadian fit_branch rows).worst_window = none ∧
      (analyse_circadian fit_branch rows).peak_score_variance = none ∧
      (analyse_circadian fit_branch rows).chronotype_estimate = none ∧
      (circ_points rows ≠ [] →
        (analyse_circadian fit_branch rows).mesor
          = some (list_mean ((circ_points rows).map (·.2))))) ∧
    (∀ epochs : List HEpoch,
      ((valid_hrv epochs).map (·.date)).dedup.length < 2 →
      rmssd_7d_slope epochs = none) := by
  constructor
  · intro fit_branch rows hn
    unfold analyse_circadian
    by_cases hr : (rows.filter (fun r => r.type == "READY")).isEmpty
    · rw [if_pos hr]
      have hpts : circ_points rows = [] := by
        unfold circ_points
        rw [List.isEmpty_iff] at hr
        rw [hr]
        rfl
      exact ⟨rfl, rfl, rfl, rfl, rfl, rfl, rfl, fun hne => absurd hpts hne⟩
    · rw [if_neg hr, if_pos hn]
      refine ⟨rfl, rfl, rfl, rfl, rfl, rfl, rfl, fun hne => ?_⟩
      show (if (circ_points rows).isEmpty then none
        else some (list_mean ((circ_points rows).map (·.2)))) = _
      rw [if_neg (by rw [List.isEmpty_iff]; exact hne)]
  · intro epochs hd
    unfold rmssd_7d_slope
    by_cases hv : (valid_hrv epochs).isEmpty
    · rw [if_pos hv]
    · rw [if_neg hv]
      simp only
      rw [if_pos (by rw [List.length_mergeSort]; exact hd)]

/-- Claim C8 witness: three valid circadian samples give a mean-only
no-fit result, and one valid HRV day gives a null slope. -/
theorem insufficient_data_nulls_witness :
    (analyse_circadian (fun _ => ⟨false, none, none, none, none, none, 0, none, none⟩)
        [⟨"READY", 9, some 150⟩, ⟨"READY", 13, some 160⟩, ⟨"READY", 20, some 140⟩]).cosinor_fit
      = false ∧
    (analyse_circadian (fun _ => ⟨false, none, none, none, none, none, 0, none, none⟩)
        [⟨"READY", 9, some 150⟩, ⟨"READY", 13, some 160⟩, ⟨"READY", 20, some 140⟩]).mesor
      = some (list_mean [150, 160, 140]) ∧
    rmssd_7d_slope [⟨true, some 45, some 1, "2026-01-01"⟩, ⟨true, some 55, some 1, "2026-01-01"⟩]
      = none := by
  have h1 := (insufficient_data_nulls.1
    (fun _ => ⟨false, none, none, none, none, none, 0, none, none⟩)
    [⟨"READY", 9, some 150⟩, ⟨"READY", 13, some 160⟩, ⟨"READY", 20, some 140⟩]
    (by decide))
  have h2 := insufficient_data_nulls.2
    [⟨true, some 45, some 1, "2026-01-01"⟩, ⟨true, some 55, some 1, "2026-01-01"⟩]
    (by norm_num [valid_hrv, List.filter, List.dedup_cons_of_mem])
  exact ⟨h1.1, by rw [h1.2.2.2.2.2.2.2 (by decide)]; rfl, h2⟩

theorem strip_nulls_not_null {v w : Val} (h : strip_nulls v = some w) :
    is_null w = false := by
  cases v with
  | vnull => simp [strip_nulls] at h
  | num q => rw [strip_nulls] at h; cases h; rfl
  | str s => rw [strip_nulls] at h; cases h; rfl
  | bool b => rw [strip_nulls] at h; cases h; rfl
  | arr l => rw [strip_nulls] at h; cases h; rfl
  | obj kvs =>
      rw [strip_nulls] at h
      split_ifs at h
      cases h; rfl

theorem strip_ok_all (n : ℕ) :
    (∀ v : Val, sizeOf v ≤ n → ∀ w, strip_nulls v = some w → amended_ok w = true) ∧
    (∀ l : List Val, sizeOf l ≤ n → ok_arr (strip_arr l) = true) ∧
    (∀ kvs : List (String × Val), sizeOf kvs ≤ n → ok_obj (strip_obj kvs) = true) := by
  induction n with
  | zero =>
    refine ⟨fun v hv => ?_, fun l hl => ?_, fun kvs hk => ?_⟩
    · cases v <;> simp_arith at hv
    · cases l <;> simp_arith at hl
    · cases kvs <;> simp_arith at hk
  | succ n ih =>
    refine ⟨fun v hv w hw => ?_, fun l hl => ?_, fun kvs hk => ?_⟩
    · cases v with
      | vnull => simp [strip_nulls] at hw
      | num q => rw [strip_nulls] at hw; cases hw; rfl
      | str s => rw [strip_nulls] at hw; cases hw; rfl
      | bool b => rw [strip_nulls] at hw; cases hw; rfl
      | arr l =>
          rw [strip_nulls] at hw
          cases hw
          show ok_arr (strip_arr l) = true
          exact ih.2.1 l (by simp_arith at hv; omega)
      | obj kvs =>
          rw [strip_nulls] at hw
          split_ifs at hw
          cases hw
          show ok_obj (strip_obj kvs) = true
          exact ih.2.2 kvs (by simp_arith at hv; omega)
    · cases l with
      | nil => rfl
      | cons v vs =>
          simp_arith at hl
          rw [strip_arr]
          cases hs : strip_nulls v with
          | none => exact ih.2.1 vs (by omega)
          | some w =>
              show (amended_ok w && ok_arr (strip_arr vs)) = true
              rw [ih.1 v (by omega) w hs, ih.2.1 vs (by omega)]
              rfl
    · cases kvs with
      | nil => rfl
      | cons kv rest =>
          obtain ⟨k, v⟩ := kv
          simp_arith at hk
          rw [strip_obj]
          cases hs : strip_nulls v with
          | none => exact ih.2.2 rest (by omega)
          | some w =>
              simp only
              split_ifs with he
              · exact ih.2.2 rest (by omega)
              · show (!is_null w && !is_empty_obj w && amended_ok w
                    && ok_obj (strip_obj rest)) = true
                rw [strip_nulls_not_null hs, ih.1 v (by omega) w hs,
                  ih.2.2 rest (by omega)]
                simp [he]

/-- Claim C9 (amended): whenever `build_agent_payload` returns a payload,
the payload contains no dict entry whose value is null and none whose
value is an empty dict, at any depth; dict entries whose value is an
empty list may remain. -/
theorem payload_stripped (v w : Val) (h : build_agent_payload v = some w) :
    amended_ok w = true :=
  (strip_ok_all (sizeOf v)).1 v (le_refl _) w h

/-- Claim C9, counterexample to the empty-list part: a dict entry holding
an empty list survives stripping unchanged. -/
theorem payload_stripped_cex :
    build_agent_payload (.obj [("a", .arr [])]) = some (.obj [("a", .arr [])]) ∧
    claim_ok (.obj [("a", .arr [])]) = false :=
  ⟨rfl, rfl⟩

/-- Claim C9 witness: the amended guarantee at a concrete payload with a
null entry stripped away. -/
theorem payload_stripped_witness :
    build_agent_payload (.obj [("a", .num 1), ("b", .vnull)])
      = some (.obj [("a", .num 1)]) ∧
    amended_ok (.obj [("a", .num 1)]) = true :=
  ⟨rfl, payload_stripped (.obj [("a", .num 1), ("b", .vnull)]) (.obj [("a", .num 1)]) rfl⟩

/-- Claim C1: every daily strain record produced by `analyse_strain` has
its strain score and both sub-scores within [0, 21], for every grouping
and max-HR estimate; and every date classified by
`assign_readiness_tiers` gets one of exactly the five tier names. -/
theorem strain_bounds_and_tier_names :
    (∀ (days : List (String × List StrainEpoch)) (max_hr : ℚ) (r : DailyStrain),
      r ∈ analyse_strain days max_hr →
      (0 ≤ r.strain_score ∧ r.strain_score ≤ 21) ∧
      (0 ≤ r.cardiovascular_strain ∧ r.cardiovascular_strain ≤ 21) ∧
      (0 ≤ r.muscular_strain ∧ r.muscular_strain ≤ 21)) ∧
    (∀ (results : ReadinessInput) (p : String × TierInfo),
      p ∈ (assign_readiness_tiers results).1 → p.2.tier ∈ tier_names) := by
  constructor
  · intro days max_hr r hr
    unfold analyse_strain at hr
    rcases List.mem_map.mp hr with ⟨d, hd, rfl⟩
    exact daily_strain_record_bounds d.1 d.2 max_hr
  · intro results p hp
    obtain ⟨day, hday, rfl⟩ := tiers_by_date_inv results hp
    exact classify_tier_mem _ _ _ _

/-- Claim C1 witness: the bounds at a one-epoch day and the tier-name
guarantee at a one-day readiness input. -/
theorem strain_bounds_and_tier_names_witness :
    (0 ≤ (daily_strain_record "2026-01-01" [⟨100, 50⟩] 190).strain_score ∧
      (daily_strain_record "2026-01-01" [⟨100, 50⟩] 190).strain_score ≤ 21) ∧
    (tier_entry wit_readiness ⟨"2026-01-05", some 160⟩).2.tier ∈ tier_names := by
  constructor
  · exact ((strain_bounds_and_tier_names.1 [("2026-01-01", [⟨100, 50⟩])] 190
      (daily_strain_record "2026-01-01" [⟨100, 50⟩] 190)
      (by unfold analyse_strain; exact List.mem_singleton.mpr rfl)).1)
  · exact strain_bounds_and_tier_names.2 wit_readiness
      (tier_entry wit_readiness ⟨"2026-01-05", some 160⟩)
      (List.mem_singleton.mpr rfl)

/-- Claim C2: the self-report override never promotes (the tier with the
override applied is never higher in the order Peak > Good > Moderate >
Low > Recovery than without it); stress > 7 with sleepiness > 7 caps the
tier at Recovery (it becomes exactly Recovery); stress > 5 with
sleepiness > 5 caps the tier at Low (rank at least Low's). -/
theorem self_report_override_monotone :
    (∀ ready_score rmssd_pct stress sleepiness : Option ℚ,
      tier_rank (classify_tier ready_score rmssd_pct none none) ≤
        tier_rank (classify_tier ready_score rmssd_pct stress sleepiness)) ∧
    (∀ (ready_score rmssd_pct : Option ℚ) (s sl : ℚ), 7 < s → 7 < sl →
      classify_tier ready_score rmssd_pct (some s) (some sl) = "Recovery") ∧
    (∀ (ready_score rmssd_pct : Option ℚ) (s sl : ℚ), 5 < s → 5 < sl →
      3 ≤ tier_rank (classify_tier ready_score rmssd_pct (some s) (some sl))) :=
  ⟨classify_tier_not_promoting,
   fun a b s sl hs hsl => classify_tier_cap_recovery a b s sl hs hsl,
   fun a b s sl hs hsl => classify_tier_cap_low a b s sl hs hsl⟩

/-- Claim C2 witness: the override at a Peak-qualifying day with severe
(8/8) and elevated (6/6) self-reports. -/
theorem self_report_override_monotone_witness :
    tier_rank (classify_tier (some 180) (some 95) none none) ≤
      tier_rank (classify_tier (some 180) (some 95) (some 8) (some 8)) ∧
    classify_tier (some 180) (some 95) (some 8) (some 8) = "Recovery" ∧
    3 ≤ tier_rank (classify_tier (some 180) (some 95) (some 6) (some 6)) :=
  ⟨self_report_override_monotone.1 (some 180) (some 95) (some 8) (some 8),
   self_report_override_monotone.2.1 (some 180) (some 95) 8 8 (by norm_num) (by norm_num),
   self_report_override_monotone.2.2 (some 180) (some 95) 6 6 (by norm_num) (by norm_num)⟩

/-- Claim C10: `assign_readiness_tiers` classifies every date against the
single run-level `rmssd_pct_baseline` field: its output is unchanged by
any change to the other (per-date) HRV fields, and every entry's tier is
exactly `_classify_tier` of that day's mean, the run-level
`rmssd_pct_baseline` and that date's self-report lookup. -/
theorem single_hrv_value_tiers :
    (∀ (perf : PerfOut) (h1 h2 : HrvOut),
      h1.rmssd_pct_baseline = h2.rmssd_pct_baseline →
      assign_readiness_tiers ⟨perf, h1⟩ = assign_readiness_tiers ⟨perf, h2⟩) ∧
    (∀ (results : ReadinessInput) (p : String × TierInfo),
      p ∈ (assign_readiness_tiers results).1 →
      ∃ day ∈ results.performance.daily_ready,
        p.1 = str_take10 day.date ∧
        p.2.tier = classify_tier day.mean results.hrv.rmssd_pct_baseline
          (sr_lookup results.performance.daily_self_report (str_take10 day.date)).1
          (sr_lookup results.performance.daily_self_report (str_take10 day.date)).2) := by
  constructor
  · intro perf h1 h2 he
    have hte : tier_entry ⟨perf, h1⟩ = tier_entry ⟨perf, h2⟩ := by
      funext day
      unfold tier_entry
      simp only [he]
    unfold assign_readiness_tiers tiers_by_date
    simp only [hte]
  · intro results p hp
    obtain ⟨day, hday, rfl⟩ := tiers_by_date_inv results hp
    exact ⟨day, hday, rfl, rfl⟩

/-- Claim C10 witness: changing every per-date HRV field leaves the tier
assignment unchanged, and the one entry of the concrete input is
classified with the run-level HRV percentage. -/
theorem single_hrv_value_tiers_witness :
    assign_readiness_tiers ⟨wit_readiness.performance, wit_readiness.hrv⟩
      = assign_readiness_tiers ⟨wit_readiness.performance, wit_hrv_alt⟩ ∧
    ∃ day ∈ wit_readiness.performance.daily_ready,
      (tier_entry wit_readiness ⟨"2026-01-05", some 160⟩).1 = str_take10 day.date ∧
      (tier_entry wit_readiness ⟨"2026-01-05", some 160⟩).2.tier
        = classify_tier day.mean wit_readiness.hrv.rmssd_pct_baseline
          (sr_lookup wit_readiness.performance.daily_self_report (str_take10 day.date)).1
          (sr_lookup wit_readiness.performance.daily_self_report (str_take10 day.date)).2 :=
  ⟨single_hrv_value_tiers.1 wit_readiness.performance wit_readiness.hrv wit_hrv_alt rfl,
   single_hrv_value_tiers.2 wit_readiness
     (tier_entry wit_readiness ⟨"2026-01-05", some 160⟩) (List.mem_singleton.mpr rfl)⟩

end PhysIns
